import Mathlib

/-!
Verification of the AugTwins browser client.

Part 1 embeds `src/static/js/chat.js` (the `ChatInterface` class): the DOM
side effects of `sendMessage` are modelled as a pure transition on an
explicit `ChatState`, with the HTTP requests it issues returned alongside
the new state and the outcome of the `fetch`/`json` round trip supplied as
an explicit parameter.

Part 2 models the client-side realtime audio streaming session described in
the specification (WebSocket `/ws`, `audio_start` / binary chunks /
`audio_end` / `error` protocol, 16-bit little-endian PCM decoding).  That
script is not present in the repository snapshot, so those definitions are
modelled from the specification's protocol description.
-/

/-- A JSON value, as produced by `JSON.stringify` in `chat.js`. -/
inductive Json
  | str (s : String)
  | num (n : Int)
  | boolVal (b : Bool)
  | obj (fields : List (String × Json))

/-- Whether a JSON object carries a field named `k`. -/
def Json.hasKey : Json → String → Bool
  | .obj fs, k => fs.any (fun p => p.1 = k)
  | _, _ => false

/-- An HTTP request issued with `fetch` in `chat.js`. -/
structure HttpRequest where
  url : String
  method : String
  body : Json

/-- JavaScript `String.prototype.trim()`: strip whitespace from both ends,
written as structural recursion over the character list. -/
def jsTrim (s : String) : String :=
  ⟨((s.data.dropWhile Char.isWhitespace).reverse.dropWhile Char.isWhitespace).reverse⟩

/-- One message bubble appended to the chat container by
`ChatInterface.addMessage` (sender label, text content, user flag). -/
structure ChatMsg where
  sender : String
  content : String
  isUser : Bool
deriving DecidableEq, Repr

/-- The observable DOM state that `ChatInterface.sendMessage` reads and
mutates: the input element's value, disabled flag and focus, the presence
of the typing indicator, and the list of appended messages. -/
structure ChatState where
  inputValue : String
  inputDisabled : Bool
  inputFocused : Bool
  typingIndicator : Bool
  messages : List ChatMsg
deriving DecidableEq, Repr

/-- `ChatInterface.addMessage`: appends one message bubble. -/
def addMessage (s : ChatState) (sender content : String) (isUser : Bool) : ChatState :=
  { s with messages := s.messages ++ [{ sender := sender, content := content, isUser := isUser }] }

/-- `ChatInterface.addSystemMessage`: `addMessage('System', message)`. -/
def addSystemMessage (s : ChatState) (content : String) : ChatState :=
  addMessage s "System" content false

/-- The three ways the `fetch('/chat')` round trip in `sendMessage` can
resolve: `response.ok` with parsed `{agent, response, audio_enabled}`,
a non-ok response with an optional `error` field, or a thrown
network/parse error with a message. -/
inductive ChatOutcome
  | ok (agent response : String) (audioEnabled : Bool)
  | notOk (error : Option String)
  | thrown (message : String)
deriving DecidableEq, Repr

/-- The request `sendMessage` issues:
`fetch('/chat', {method: 'POST', body: JSON.stringify({message})})`. -/
def chatRequest (message : String) : HttpRequest :=
  { url := "/chat", method := "POST", body := .obj [("message", .str message)] }

/-- `data.error || 'Unknown error'` — JavaScript `||` treats a missing or
empty string as falsy. -/
def errorOrUnknown : Option String → String
  | some e => if e = "" then "Unknown error" else e
  | none => "Unknown error"

/-- `ChatInterface.sendMessage`, line by line: trim the input and bail out
if empty; append the user bubble; clear and disable the input; show the
typing indicator; run the fetch (its resolution is the `outcome`
parameter) and dispatch on it; finally re-enable and refocus the input.
Returns the new state and the list of HTTP requests issued. -/
def sendMessage (s : ChatState) (outcome : ChatOutcome) : ChatState × List HttpRequest :=
  let message := jsTrim s.inputValue
  if message = "" then (s, [])
  else
    let s1 := addMessage s "You" message true
    let s2 := { s1 with inputValue := "", inputDisabled := true }
    let s3 := { s2 with typingIndicator := true }
    let s4 :=
      match outcome with
      | .ok agent response audioEnabled =>
          let t := { s3 with typingIndicator := false }
          let t1 := addMessage t agent response false
          if audioEnabled then addSystemMessage t1 "Playing audio response..." else t1
      | .notOk err =>
          let t := { s3 with typingIndicator := false }
          addSystemMessage t ("Error: " ++ errorOrUnknown err)
      | .thrown m =>
          let t := { s3 with typingIndicator := false }
          addSystemMessage t ("Connection error: " ++ m)
    let s5 := { s4 with inputDisabled := false, inputFocused := true }
    (s5, [chatRequest message])

/-- C1 counterexample: on input `"hi"` the single request `sendMessage`
sends to `POST /chat` has body `{"message": "hi"}` with no `mode` field,
so the claimed body shape `{message, mode}` is false on the code. -/
theorem chat_body_lacks_mode :
    ((sendMessage
        { inputValue := "hi", inputDisabled := false, inputFocused := true,
          typingIndicator := false, messages := [] }
        (.ok "lars" "hello" false)).2.map (fun r => r.body.hasKey "mode")) = [false] := by
  decide

/-- C1 (amended): every request `sendMessage` sends to `POST /chat` has
JSON body of shape `{message}` (the trimmed input, with no `mode` field),
and the client treats the response as `{agent, response}` (displayed as an
agent message) or `{error}` (displayed as a system error message); a
thrown error is displayed as a connection-error message. -/
theorem chat_request_response_shape (s : ChatState) (o : ChatOutcome) :
    (∀ r ∈ (sendMessage s o).2,
        r.url = "/chat" ∧ r.method = "POST" ∧
        r.body = .obj [("message", .str (jsTrim s.inputValue))] ∧
        r.body.hasKey "mode" = false) ∧
    (jsTrim s.inputValue ≠ "" →
      match o with
      | .ok agent response _ =>
          ({ sender := agent, content := response, isUser := false } : ChatMsg)
            ∈ (sendMessage s o).1.messages
      | .notOk err =>
          ({ sender := "System", content := "Error: " ++ errorOrUnknown err,
             isUser := false } : ChatMsg) ∈ (sendMessage s o).1.messages
      | .thrown m =>
          ({ sender := "System", content := "Connection error: " ++ m,
             isUser := false } : ChatMsg) ∈ (sendMessage s o).1.messages) := by
  by_cases h : jsTrim s.inputValue = ""
  · constructor
    · intro r hr
      simp [sendMessage, h] at hr
    · intro hne
      exact absurd h hne
  · constructor
    · intro r hr
      simp [sendMessage, h, chatRequest] at hr
      subst hr
      simp [chatRequest, Json.hasKey]
    · intro _
      cases o with
      | ok agent response audioEnabled =>
          cases audioEnabled <;>
            simp [sendMessage, h, addMessage, addSystemMessage]
      | notOk err =>
          simp [sendMessage, h, addMessage, addSystemMessage]
      | thrown m =>
          simp [sendMessage, h, addMessage, addSystemMessage]

/-- C1 witness: instantiating the amended theorem on input `"hi"` with a
successful `{agent, response}` reply shows the agent bubble is appended. -/
theorem chat_request_response_shape_witness :
    ({ sender := "lars", content := "hello", isUser := false } : ChatMsg)
      ∈ (sendMessage
          { inputValue := "hi", inputDisabled := false, inputFocused := true,
            typingIndicator := false, messages := [] }
          (.ok "lars" "hello" false)).1.messages :=
  (chat_request_response_shape
      { inputValue := "hi", inputDisabled := false, inputFocused := true,
        typingIndicator := false, messages := [] }
      (.ok "lars" "hello" false)).2 (by decide)

/-- C9: when the trimmed input is empty, `sendMessage` returns at once:
no HTTP request is issued, no message is appended, the input is neither
disabled nor cleared — the whole interface state is unchanged. -/
theorem empty_input_is_noop (s : ChatState) (o : ChatOutcome)
    (h : jsTrim s.inputValue = "") :
    sendMessage s o = (s, []) := by
  simp [sendMessage, h]

/-- C9 witness: on whitespace-only input `"  "` nothing happens. -/
theorem empty_input_is_noop_witness :
    jsTrim "  " = "" ∧
    sendMessage
        { inputValue := "  ", inputDisabled := false, inputFocused := true,
          typingIndicator := false, messages := [] } (.thrown "boom") =
      ({ inputValue := "  ", inputDisabled := false, inputFocused := true,
         typingIndicator := false, messages := [] }, []) :=
  ⟨by decide,
   empty_input_is_noop
     { inputValue := "  ", inputDisabled := false, inputFocused := true,
       typingIndicator := false, messages := [] } (.thrown "boom") (by decide)⟩

/-- C10: for every outcome of `sendMessage` on non-empty input — success,
non-ok response, or thrown error — the final state has the typing
indicator removed and the input re-enabled and refocused. -/
theorem sendMessage_restores_ui (s : ChatState) (o : ChatOutcome)
    (h : jsTrim s.inputValue ≠ "") :
    (sendMessage s o).1.typingIndicator = false ∧
    (sendMessage s o).1.inputDisabled = false ∧
    (sendMessage s o).1.inputFocused = true := by
  cases o with
  | ok agent response audioEnabled =>
      cases audioEnabled <;>
        simp [sendMessage, h, addMessage, addSystemMessage]
  | notOk err => simp [sendMessage, h, addMessage, addSystemMessage]
  | thrown m => simp [sendMessage, h, addMessage, addSystemMessage]

/-- C10 witness: after a thrown connection error on input `"hi"` the
typing indicator is gone and the input is enabled and focused. -/
theorem sendMessage_restores_ui_witness :
    jsTrim "hi" ≠ "" ∧
    ((sendMessage
        { inputValue := "hi", inputDisabled := false, inputFocused := false,
          typingIndicator := false, messages := [] } (.thrown "boom")).1.typingIndicator = false ∧
     (sendMessage
        { inputValue := "hi", inputDisabled := false, inputFocused := false,
          typingIndicator := false, messages := [] } (.thrown "boom")).1.inputDisabled = false ∧
     (sendMessage
        { inputValue := "hi", inputDisabled := false, inputFocused := false,
          typingIndicator := false, messages := [] } (.thrown "boom")).1.inputFocused = true) :=
  ⟨by decide,
   sendMessage_restores_ui
     { inputValue := "hi", inputDisabled := false, inputFocused := false,
       typingIndicator := false, messages := [] } (.thrown "boom") (by decide)⟩

/-! ## Part 2: the realtime audio streaming session

The definitions below are modelled from the specification: the client-side
realtime audio script (WebSocket `/ws` session, PCM decoding, playback) is
not part of the repository snapshot, only its protocol description is. -/

/-- Modelled from the spec: the fixed mono output sample rate of the
missing realtime audio client's decoder. -/
def sampleRate : Nat := 22050

/-- Modelled from the spec: read one little-endian 16-bit signed integer
from the byte pair `(lo, hi)` (bytes taken mod 256, as a byte array
would). Values `≥ 32768` wrap to the negative range. -/
def int16OfLe (lo hi : Nat) : Int :=
  let v := lo % 256 + 256 * (hi % 256)
  if v < 32768 then (v : Int) else (v : Int) - 65536

/-- Modelled from the spec: normalize one 16-bit sample to the floating
range by dividing by 32768. -/
def sampleOfInt16 (k : Int) : ℚ := (k : ℚ) / 32768

/-- Modelled from the spec: decode consecutive little-endian byte pairs
into normalized samples. -/
def decodePairs : List Nat → List ℚ
  | lo :: hi :: rest => sampleOfInt16 (int16OfLe lo hi) :: decodePairs rest
  | _ => []

/-- Modelled from the spec: the missing realtime audio client's decode
step. A payload with an odd byte count is malformed (`DecodeError`);
otherwise every byte pair becomes one sample. -/
def decode (bs : List Nat) : Option (List ℚ) :=
  if bs.length % 2 = 0 then some (decodePairs bs) else none

/-- Modelled from the spec: encode a float in `[-1, 1)` to a 16-bit signed
PCM sample (scale by 32768, take the floor, clamp to the 16-bit range). -/
def encodeSample (f : ℚ) : Int :=
  max (-32768) (min 32767 ⌊f * 32768⌋)

/-- Modelled from the spec: the two little-endian bytes of an encoded
sample. -/
def encodeBytes (f : ℚ) : List Nat :=
  let m := (encodeSample f % 65536).toNat
  [m % 256, m / 256]

/-- Every decoded 16-bit value lies in the signed 16-bit range. -/
theorem int16OfLe_range (lo hi : Nat) :
    -32768 ≤ int16OfLe lo hi ∧ int16OfLe lo hi ≤ 32767 := by
  unfold int16OfLe
  have h1 : lo % 256 < 256 := Nat.mod_lt _ (by norm_num)
  have h2 : hi % 256 < 256 := Nat.mod_lt _ (by norm_num)
  simp only
  split <;> constructor <;> omega

/-- Normalizing a 16-bit value lands in `[-1, 1)`. -/
theorem sampleOfInt16_range (k : Int) (h1 : -32768 ≤ k) (h2 : k ≤ 32767) :
    -1 ≤ sampleOfInt16 k ∧ sampleOfInt16 k < 1 := by
  unfold sampleOfInt16
  constructor
  · rw [le_div_iff₀ (by norm_num : (0:ℚ) < 32768)]
    have hc : (-32768 : ℚ) ≤ (k : ℚ) := by exact_mod_cast h1
    linarith
  · rw [div_lt_one (by norm_num : (0:ℚ) < 32768)]
    have hc : (k : ℚ) ≤ 32767 := by exact_mod_cast h2
    linarith

/-- An even-length payload decodes to one sample per byte pair. -/
theorem decodePairs_length : ∀ (bs : List Nat), bs.length % 2 = 0 →
    2 * (decodePairs bs).length = bs.length
  | [], _ => rfl
  | [_], h => by simp at h
  | lo :: hi :: rest, h => by
      have ih := decodePairs_length rest (by simp at h; omega)
      simp [decodePairs]
      omega

/-- Every decoded sample lies in `[-1, 1)`. -/
theorem decodePairs_mem_range : ∀ (bs : List Nat), ∀ v ∈ decodePairs bs, -1 ≤ v ∧ v < 1
  | [] => by simp [decodePairs]
  | [_] => by simp [decodePairs]
  | lo :: hi :: rest => by
      intro v hv
      simp only [decodePairs, List.mem_cons] at hv
      rcases hv with h | h
      · subst h
        exact sampleOfInt16_range _ (int16OfLe_range lo hi).1 (int16OfLe_range lo hi).2
      · exact decodePairs_mem_range rest v h

/-- The `i`-th decoded sample is the normalized little-endian value of the
`i`-th byte pair. -/
theorem decodePairs_getD : ∀ (bs : List Nat), ∀ i, i < (decodePairs bs).length →
    (decodePairs bs).getD i 0 =
      sampleOfInt16 (int16OfLe (bs.getD (2 * i) 0) (bs.getD (2 * i + 1) 0))
  | [], i => by simp [decodePairs]
  | [_], i => by simp [decodePairs]
  | lo :: hi :: rest, 0 => by
      intro _
      simp [decodePairs]
  | lo :: hi :: rest, (n + 1) => by
      intro hlt
      have ih := decodePairs_getD rest n
        (by simp only [decodePairs, List.length_cons] at hlt; omega)
      have e1 : 2 * (n + 1) = 2 * n + 1 + 1 := by omega
      have e2 : 2 * (n + 1) + 1 = 2 * n + 1 + 1 + 1 := by omega
      simp only [decodePairs, e1, e2, List.getD_cons_succ]
      exact ih

/-- C4: a successfully decoded payload is read as consecutive little-endian
16-bit signed integers, each divided by 32768; every output sample lies in
`[-1, 1)`, and the fixed mono sample rate is 22050 Hz. -/
theorem decode_le16_normalized (bs : List Nat) (samples : List ℚ)
    (h : decode bs = some samples) :
    sampleRate = 22050 ∧
    2 * samples.length = bs.length ∧
    (∀ i, i < samples.length →
        samples.getD i 0 =
          sampleOfInt16 (int16OfLe (bs.getD (2 * i) 0) (bs.getD (2 * i + 1) 0))) ∧
    (∀ v ∈ samples, -1 ≤ v ∧ v < 1) := by
  have heven : bs.length % 2 = 0 := by
    by_contra hodd
    simp [decode, hodd] at h
  have hs : samples = decodePairs bs := by
    simp [decode, heven] at h
    exact h.symm
  subst hs
  exact ⟨rfl, decodePairs_length bs heven, decodePairs_getD bs, decodePairs_mem_range bs⟩

/-- C4 witness: `[0x0000, 0x7fff]` decodes to `[0, 32767/32768]`, whose
samples satisfy the stated shape and range. -/
theorem decode_le16_normalized_witness :
    decode [0, 0, 255, 127] = some [0, 32767 / 32768] ∧
    (sampleRate = 22050 ∧
     2 * ([(0 : ℚ), 32767 / 32768]).length = ([0, 0, 255, 127] : List Nat).length ∧
     (∀ i, i < ([(0 : ℚ), 32767 / 32768]).length →
        ([(0 : ℚ), 32767 / 32768]).getD i 0 =
          sampleOfInt16 (int16OfLe (([0, 0, 255, 127] : List Nat).getD (2 * i) 0)
            (([0, 0, 255, 127] : List Nat).getD (2 * i + 1) 0))) ∧
     (∀ v ∈ ([(0 : ℚ), 32767 / 32768]), -1 ≤ v ∧ v < 1)) :=
  ⟨by norm_num [decode, decodePairs, sampleOfInt16, int16OfLe],
   decode_le16_normalized [0, 0, 255, 127] [0, 32767 / 32768]
     (by norm_num [decode, decodePairs, sampleOfInt16, int16OfLe])⟩

/-- Reading back the two little-endian bytes of a 16-bit value recovers it. -/
theorem int16OfLe_emod (k : Int) (h1 : -32768 ≤ k) (h2 : k ≤ 32767) :
    int16OfLe (((k % 65536).toNat) % 256) (((k % 65536).toNat) / 256) = k := by
  simp only [int16OfLe]
  split <;> omega

/-- For `f` in `[-1, 1)` the clamp in `encodeSample` is inactive. -/
theorem encodeSample_eq_floor (f : ℚ) (h1 : -1 ≤ f) (h2 : f < 1) :
    encodeSample f = ⌊f * 32768⌋ := by
  have hk1 : -32768 ≤ ⌊f * 32768⌋ := by
    apply Int.le_floor.mpr
    push_cast
    linarith
  have hk2 : ⌊f * 32768⌋ ≤ 32767 := by
    have hlt : ⌊f * 32768⌋ < 32768 := by
      apply Int.floor_lt.mpr
      push_cast
      linarith
    omega
  unfold encodeSample
  rw [min_eq_right hk2, max_eq_right hk1]

/-- C5: encoding a float in `[-1, 1)` to a little-endian 16-bit signed PCM
sample and decoding it back yields a value within `1/32768` of the
original. -/
theorem decode_encode_roundtrip (f : ℚ) (h1 : -1 ≤ f) (h2 : f < 1) :
    ∃ v, decode (encodeBytes f) = some [v] ∧ |v - f| ≤ 1 / 32768 := by
  have hk1 : -32768 ≤ ⌊f * 32768⌋ := by
    apply Int.le_floor.mpr
    push_cast
    linarith
  have hk2 : ⌊f * 32768⌋ ≤ 32767 := by
    have hlt : ⌊f * 32768⌋ < 32768 := by
      apply Int.floor_lt.mpr
      push_cast
      linarith
    omega
  refine ⟨sampleOfInt16 ⌊f * 32768⌋, ?_, ?_⟩
  · simp only [decode, encodeBytes, encodeSample_eq_floor f h1 h2, decodePairs]
    rw [int16OfLe_emod _ hk1 hk2]
    simp
  · have hfl : ((⌊f * 32768⌋ : Int) : ℚ) ≤ f * 32768 := Int.floor_le _
    have hfu : f * 32768 < ((⌊f * 32768⌋ : Int) : ℚ) + 1 := Int.lt_floor_add_one _
    have hv : sampleOfInt16 ⌊f * 32768⌋ - f =
        (((⌊f * 32768⌋ : Int) : ℚ) - f * 32768) / 32768 := by
      unfold sampleOfInt16
      ring
    rw [abs_le, hv]
    constructor <;> linarith

/-- C5 witness: the round trip at `f = 1/2` stays within `1/32768`. -/
theorem decode_encode_roundtrip_witness :
    ((-1 : ℚ) ≤ 1 / 2 ∧ (1 / 2 : ℚ) < 1) ∧
    ∃ v, decode (encodeBytes (1 / 2)) = some [v] ∧ |v - 1 / 2| ≤ 1 / 32768 :=
  ⟨⟨by norm_num, by norm_num⟩,
   decode_encode_roundtrip (1 / 2) (by norm_num) (by norm_num)⟩

/-- Modelled from the spec: the per-Job protocol states of the missing
realtime audio client. -/
inductive JobPhase
  | pending
  | streaming
  | decoding
  | playing
  | done
  | failed
deriving DecidableEq, Repr

/-- Modelled from the spec: one text-to-speech Job — its locally generated
id, requested text, accumulated binary chunks in receipt order, and
protocol phase. -/
structure Job where
  id : Nat
  text : String
  chunks : List (List Nat)
  phase : JobPhase
deriving DecidableEq, Repr

/-- Modelled from the spec: the failure taxonomy reported by the missing
realtime audio client. -/
inductive ErrorKind
  | transportTimeout
  | transportError
  | serverReported (msg : String)
  | decodeError
  | unsupportedEnv
deriving DecidableEq, Repr

/-- Modelled from the spec: the per-page Session of the missing realtime
audio client — audio capability, the lazily opened transport, the single
active-Job slot, terminated Jobs, the playback invocations made so far
(each a list of decoded samples), and the reported errors. -/
structure Session where
  audioSupported : Bool
  transportOpen : Bool
  activeJob : Option Job
  finishedJobs : List Job
  playbacks : List (List ℚ)
  reports : List ErrorKind
deriving DecidableEq, Repr

/-- Modelled from the spec: the inbound events the Session reacts to —
the three control messages, raw binary frames, and transport close. -/
inductive Event
  | audioStart (id : Nat)
  | binaryChunk (data : List Nat)
  | audioEnd (id : Nat)
  | errorMsg (id : Nat) (msg : String)
  | transportClose
deriving DecidableEq, Repr

/-- Modelled from the spec: `requestPlayback(text)` of the missing
realtime audio client. Rejected (drop-on-busy, no queue) while a Job is
active; a no-op skip without audio support; otherwise lazily opens the
transport, failing the fresh Job with a timeout error when the transport
does not reach the open state within the fixed 5-second wait. -/
def requestPlayback (s : Session) (text : String) (freshId : Nat)
    (opensWithinTimeout : Bool) : Session :=
  if s.activeJob.isSome then s
  else if !s.audioSupported then s
  else if s.transportOpen then
    { s with activeJob := some { id := freshId, text := text, chunks := [], phase := .pending } }
  else if opensWithinTimeout then
    { s with transportOpen := true,
             activeJob := some { id := freshId, text := text, chunks := [], phase := .pending } }
  else
    { s with
        finishedJobs := s.finishedJobs ++
          [{ id := freshId, text := text, chunks := [], phase := .failed }],
        reports := s.reports ++ [.transportTimeout] }

/-- Modelled from the spec: the Session's message dispatcher. `audio_start`
for the active id moves the Job to streaming; binary frames append to the
active streaming Job's buffer and are dropped in any other state;
`audio_end` concatenates the chunks in arrival order, decodes, and either
plays the samples or fails with a decode error; an `error` message for the
active id fails the Job, discarding its chunks; transport close aborts the
in-flight Job and drops the transport. Messages for unknown or stale ids
are ignored. -/
def step (s : Session) : Event → Session
  | .audioStart i =>
      match s.activeJob with
      | some j =>
          if j.id = i ∧ j.phase = .pending then
            { s with activeJob := some { j with phase := .streaming } }
          else s
      | none => s
  | .binaryChunk d =>
      match s.activeJob with
      | some j =>
          if j.phase = .streaming then
            { s with activeJob := some { j with chunks := j.chunks ++ [d] } }
          else s
      | none => s
  | .audioEnd i =>
      match s.activeJob with
      | some j =>
          if j.id = i ∧ j.phase = .streaming then
            match decode j.chunks.flatten with
            | some samples =>
                { s with activeJob := none,
                         finishedJobs := s.finishedJobs ++ [{ j with phase := .done }],
                         playbacks := s.playbacks ++ [samples] }
            | none =>
                { s with activeJob := none,
                         finishedJobs := s.finishedJobs ++
                           [{ j with chunks := [], phase := .failed }],
                         reports := s.reports ++ [.decodeError] }
          else s
      | none => s
  | .errorMsg i msg =>
      match s.activeJob with
      | some j =>
          if j.id = i then
            { s with activeJob := none,
                     finishedJobs := s.finishedJobs ++
                       [{ j with chunks := [], phase := .failed }],
                     reports := s.reports ++ [.serverReported msg] }
          else s
      | none => s
  | .transportClose =>
      match s.activeJob with
      | some j =>
          { s with transportOpen := false, activeJob := none,
                   finishedJobs := s.finishedJobs ++
                     [{ j with chunks := [], phase := .failed }],
                   reports := s.reports ++ [.transportError] }
      | none => { s with transportOpen := false }

/-- Folding the dispatcher over a whole inbound message sequence. -/
def runTrace (s : Session) : List Event → Session
  | [] => s
  | e :: es => runTrace (step s e) es

/-- C2: at most one Job is active per Session — `requestPlayback` while a
Job is in flight is rejected outright: the Session is unchanged (nothing
is queued) and the in-flight Job's state is undisturbed. -/
theorem requestPlayback_busy_rejected (s : Session) (j : Job) (t : String)
    (i : Nat) (b : Bool) (h : s.activeJob = some j) :
    requestPlayback s t i b = s ∧ (requestPlayback s t i b).activeJob = some j := by
  have hs : s.activeJob.isSome = true := by rw [h]; rfl
  have he : requestPlayback s t i b = s := by simp [requestPlayback, hs]
  exact ⟨he, by rw [he, h]⟩

/-- C2 witness: a second request while Job 1 is still streaming leaves the
Session — Job 1 included — exactly as it was. -/
theorem requestPlayback_busy_rejected_witness :
    ({ audioSupported := true, transportOpen := true,
       activeJob := some { id := 1, text := "hello", chunks := [], phase := .streaming },
       finishedJobs := [], playbacks := [], reports := [] } : Session).activeJob =
        some { id := 1, text := "hello", chunks := [], phase := .streaming } ∧
    (requestPlayback
        { audioSupported := true, transportOpen := true,
          activeJob := some { id := 1, text := "hello", chunks := [], phase := .streaming },
          finishedJobs := [], playbacks := [], reports := [] } "hi" 2 true =
      { audioSupported := true, transportOpen := true,
        activeJob := some { id := 1, text := "hello", chunks := [], phase := .streaming },
        finishedJobs := [], playbacks := [], reports := [] } ∧
     (requestPlayback
        { audioSupported := true, transportOpen := true,
          activeJob := some { id := 1, text := "hello", chunks := [], phase := .streaming },
          finishedJobs := [], playbacks := [], reports := [] } "hi" 2 true).activeJob =
      some { id := 1, text := "hello", chunks := [], phase := .streaming }) :=
  ⟨rfl,
   requestPlayback_busy_rejected
     { audioSupported := true, transportOpen := true,
       activeJob := some { id := 1, text := "hello", chunks := [], phase := .streaming },
       finishedJobs := [], playbacks := [], reports := [] }
     { id := 1, text := "hello", chunks := [], phase := .streaming } "hi" 2 true rfl⟩

/-- C3: a binary chunk received while the active Job is still pending
(before its `audio_start`) is discarded — the Session is unchanged, so the
chunk is never part of any payload later decoded and played: every
continuation of the trace ends in the same state it would reach had the
chunk never arrived. -/
theorem pending_chunk_discarded (s : Session) (j : Job) (d : List Nat)
    (hj : s.activeJob = some j) (hp : j.phase = .pending) :
    step s (.binaryChunk d) = s ∧
    ∀ evs, runTrace (step s (.binaryChunk d)) evs = runTrace s evs := by
  have h1 : step s (.binaryChunk d) = s := by simp [step, hj, hp]
  exact ⟨h1, fun evs => by rw [h1]⟩

/-- C3 witness: a chunk arriving at a pending Job changes nothing. -/
theorem pending_chunk_discarded_witness :
    step
        { audioSupported := true, transportOpen := true,
          activeJob := some { id := 1, text := "hello", chunks := [], phase := .pending },
          finishedJobs := [], playbacks := [], reports := [] }
        (.binaryChunk [7, 7]) =
      { audioSupported := true, transportOpen := true,
        activeJob := some { id := 1, text := "hello", chunks := [], phase := .pending },
        finishedJobs := [], playbacks := [], reports := [] } :=
  (pending_chunk_discarded
     { audioSupported := true, transportOpen := true,
       activeJob := some { id := 1, text := "hello", chunks := [], phase := .pending },
       finishedJobs := [], playbacks := [], reports := [] }
     { id := 1, text := "hello", chunks := [], phase := .pending } [7, 7] rfl rfl).1

/-- C6: accumulating the chunks `c1, c2, c3` in receipt order and decoding
at `audio_end` plays exactly the samples of decoding the single
concatenation `c1 ++ c2 ++ c3`. -/
theorem chunk_assembly_assoc (s : Session) (j : Job) (c1 c2 c3 : List Nat)
    (samples : List ℚ) (hj : s.activeJob = some j) (hp : j.phase = .streaming)
    (hc : j.chunks = []) (hd : decode (c1 ++ c2 ++ c3) = some samples) :
    (runTrace s
        [.binaryChunk c1, .binaryChunk c2, .binaryChunk c3, .audioEnd j.id]).playbacks =
      s.playbacks ++ [samples] := by
  simp only [List.append_assoc] at hd
  simp [runTrace, step, hj, hp, hc, hd]

/-- C6 witness: the three-chunk scenario `[0,0]`, `[255,127]`, `[]` plays
the two samples of the concatenated payload. -/
theorem chunk_assembly_assoc_witness :
    (runTrace
        { audioSupported := true, transportOpen := true,
          activeJob := some { id := 1, text := "hello", chunks := [], phase := .streaming },
          finishedJobs := [], playbacks := [], reports := [] }
        [.binaryChunk [0, 0], .binaryChunk [255, 127], .binaryChunk [],
         .audioEnd 1]).playbacks = [[0, 32767 / 32768]] :=
  chunk_assembly_assoc
    { audioSupported := true, transportOpen := true,
      activeJob := some { id := 1, text := "hello", chunks := [], phase := .streaming },
      finishedJobs := [], playbacks := [], reports := [] }
    { id := 1, text := "hello", chunks := [], phase := .streaming }
    [0, 0] [255, 127] [] [0, 32767 / 32768] rfl rfl rfl
    (by norm_num [decode, decodePairs, sampleOfInt16, int16OfLe])

/-- C7: `requestPlayback` on an idle Session whose transport is closed and
never opens within the fixed 5-second timeout fails the Job with a
timeout-kind error: the active-Job slot stays free, the failed Job and the
`transportTimeout` report are recorded, and nothing else changes — in
particular no retry is queued. -/
theorem transport_timeout_fails_job (s : Session) (t : String) (i : Nat)
    (hidle : s.activeJob = none) (hsup : s.audioSupported = true)
    (hclosed : s.transportOpen = false) :
    requestPlayback s t i false =
      { s with
          finishedJobs := s.finishedJobs ++
            [{ id := i, text := t, chunks := [], phase := .failed }],
          reports := s.reports ++ [.transportTimeout] } := by
  simp [requestPlayback, hidle, hsup, hclosed]

/-- C7 witness: the timeout scenario on a fresh idle Session. -/
theorem transport_timeout_fails_job_witness :
    requestPlayback
        { audioSupported := true, transportOpen := false, activeJob := none,
          finishedJobs := [], playbacks := [], reports := [] } "hello" 1 false =
      { audioSupported := true, transportOpen := false, activeJob := none,
        finishedJobs := [{ id := 1, text := "hello", chunks := [], phase := .failed }],
        playbacks := [], reports := [.transportTimeout] } :=
  transport_timeout_fails_job
    { audioSupported := true, transportOpen := false, activeJob := none,
      finishedJobs := [], playbacks := [], reports := [] } "hello" 1 rfl rfl rfl

/-- C8: an `error` message carrying the active Job's id fails the Job in
whatever phase it is: the accumulated chunks are discarded, the active-Job
slot is released, the human-readable message is reported, and nothing else
— no playback, no retry — happens. -/
theorem error_msg_fails_job (s : Session) (j : Job) (msg : String)
    (hj : s.activeJob = some j) :
    step s (.errorMsg j.id msg) =
      { s with activeJob := none,
               finishedJobs := s.finishedJobs ++ [{ j with chunks := [], phase := .failed }],
               reports := s.reports ++ [.serverReported msg] } := by
  simp [step, hj]

/-- C8 witness: an `error{id}` arriving mid-stream fails the Job, drops
its chunks, and leaves the playback history empty. -/
theorem error_msg_fails_job_witness :
    step
        { audioSupported := true, transportOpen := true,
          activeJob := some { id := 1, text := "hello", chunks := [[7, 7]], phase := .streaming },
          finishedJobs := [], playbacks := [], reports := [] }
        (.errorMsg 1 "boom") =
      { audioSupported := true, transportOpen := true, activeJob := none,
        finishedJobs := [{ id := 1, text := "hello", chunks := [], phase := .failed }],
        playbacks := [], reports := [.serverReported "boom"] } :=
  error_msg_fails_job
    { audioSupported := true, transportOpen := true,
      activeJob := some { id := 1, text := "hello", chunks := [[7, 7]], phase := .streaming },
      finishedJobs := [], playbacks := [], reports := [] }
    { id := 1, text := "hello", chunks := [[7, 7]], phase := .streaming } "boom" rfl
